import Mathlib

/-!
Verification of the Configuration & Recognition Pipeline of the imageReco
AR web application.

Shallow embedding of the JavaScript source:
- `src/js/config-loader.js` : `ARConfigLoader` (scene generation, target
  validation and selection) and `MLClassifier` (TensorFlow-based product
  classification with stats and single-flight guard);
- `src/js/supabase-config-loader.js` : `SupabaseConfigLoader` (primary
  backend load with fallback, telemetry-emitting found/lost handlers);
- `src/js/app.js` : target found / lost DOM listeners (the recognition
  state handling);
- `src/unnamed/part_005` : `SupabaseClient` (analytics event queue and
  batched sends).

JavaScript numbers that carry probabilities / averages are modelled as
rationals; exceptions are modelled as `Except` or explicit outcome
inductives at the points where the source can throw; DOM / network effects
are modelled as explicit outcome parameters and log / telemetry outputs.
-/

namespace ImageReco

/-! ## Catalog data model (products.json shape) -/

/-- A 3-component vector, as found in `model.position` / `rotation` / `scale`. -/
structure Vec3 where
  x : ℚ
  y : ℚ
  z : ℚ
deriving Repr, DecidableEq

/-- `product.model.animation` section. -/
structure AnimationCfg where
  enabled : Bool
  clip : String
  loop : String
deriving Repr, DecidableEq

/-- `product.model` section. -/
structure ModelCfg where
  path : String
  position : Vec3
  rotation : Vec3
  scale : Vec3
  animation : AnimationCfg
deriving Repr, DecidableEq

/-- `product.target` section. -/
structure TargetCfg where
  imagePath : String
  imagePreview : String
deriving Repr, DecidableEq

/-- `product.interactions.onFound` section. -/
structure OnFoundCfg where
  showUI : Bool
  playSound : Bool
  soundPath : String
deriving Repr, DecidableEq

/-- `product.interactions.onLost` section. -/
structure OnLostCfg where
  hideUI : Bool
  pauseAnimation : Bool
deriving Repr, DecidableEq

/-- `product.interactions` section. -/
structure InteractionsCfg where
  onFound : OnFoundCfg
  onLost : OnLostCfg
deriving Repr, DecidableEq

/-- A product entry of the catalog (UI panel configuration is omitted: no
claim under verification inspects `product.ui`). -/
structure Product where
  id : String
  name : String
  targetIndex : Nat
  target : TargetCfg
  model : ModelCfg
  interactions : InteractionsCfg
deriving Repr, DecidableEq

/-- `[...new Set(l)]` — JavaScript `Set` keeps first occurrences in
insertion order. -/
def uniqueList {α : Type} [DecidableEq α] (l : List α) : List α :=
  l.foldl (fun acc x => if x ∈ acc then acc else acc ++ [x]) []

/-! ## MLClassifier (`src/js/config-loader.js`, second module)

State fields mirror the constructor: `model` (modelled by the Boolean
`modelLoaded`, i.e. `this.model !== null`), `initialized`, `isProcessing`,
`config`, `stats`, `labelMap`. -/

/-- `this.stats` of `MLClassifier`. -/
structure MLStats where
  totalClassifications : Nat
  successfulMatches : Nat
  failedMatches : Nat
  averageInferenceTime : ℚ
deriving Repr, DecidableEq

/-- `this.config` of `MLClassifier`. -/
structure MLConfig where
  confidenceThreshold : ℚ
  debugMode : Bool
  throttleInterval : Nat
  imageSize : Nat
deriving Repr, DecidableEq

/-- The mutable state of an `MLClassifier` instance. -/
structure MLClassifier where
  modelLoaded : Bool
  initialized : Bool
  isProcessing : Bool
  config : MLConfig
  stats : MLStats
  labelMap : List (String × String)
deriving Repr, DecidableEq

/-- The `MLClassifier` constructor. -/
def newMLClassifier : MLClassifier :=
  { modelLoaded := false
    initialized := false
    isProcessing := false
    config :=
      { confidenceThreshold := mkRat 7 10
        debugMode := true
        throttleInterval := 500
        imageSize := 224 }
    stats :=
      { totalClassifications := 0
        successfulMatches := 0
        failedMatches := 0
        averageInferenceTime := 0 }
    labelMap := [("Cool Mint", "product-2"), ("Spearmint", "product-1")] }

/-- `MLClassifier.isReady()`: `this.initialized && this.model !== null`. -/
def MLClassifier.isReady (s : MLClassifier) : Bool :=
  s.initialized && s.modelLoaded

/-- `MLClassifier.resetStats()`. -/
def MLClassifier.resetStats (s : MLClassifier) : MLClassifier :=
  { s with stats :=
    { totalClassifications := 0
      successfulMatches := 0
      failedMatches := 0
      averageInferenceTime := 0 } }

/-- Outcome of `tmImage.load(...)` inside `MLClassifier.initialize`
(the environment checks for `tf` / `tmImage` throwing are folded into
the `err` case, as in the source they land in the same `catch`). -/
inductive ModelLoadOutcome where
  | ok
  | err (msg : String)
deriving Repr, DecidableEq

/-- `MLClassifier.initialize(products)` (named `loadModel` here).
Empty product list: warn and return `false` without touching state.
Load failure: `this.initialized = false` and the error is rethrown.
Success: model set and `this.initialized = true`, returns `true`. -/
def MLClassifier.loadModel (s : MLClassifier) (products : List Product)
    (o : ModelLoadOutcome) : MLClassifier × Except String Bool :=
  if products.isEmpty then
    (s, Except.ok false)
  else
    match o with
    | ModelLoadOutcome.err msg => ({ s with initialized := false }, Except.error msg)
    | ModelLoadOutcome.ok =>
        ({ s with modelLoaded := true, initialized := true }, Except.ok true)

/-- One entry of the prediction array returned by `this.model.predict`. -/
structure Prediction where
  className : String
  probability : ℚ
deriving Repr, DecidableEq

/-- Outcome of `await this.model.predict(videoElement)`: either the
prediction array (plus the measured inference time), or a thrown error. -/
inductive InferenceOutcome where
  | ok (predictions : List Prediction) (inferenceTime : ℚ)
  | threw
deriving Repr, DecidableEq

/-- One entry of `result.allPredictions`. -/
structure Candidate where
  label : String
  productId : Option String
  confidence : ℚ
deriving Repr, DecidableEq

/-- The classification result object returned on a successful match. -/
structure ClassificationResult where
  productId : String
  confidence : ℚ
  label : String
  allPredictions : List Candidate
  inferenceTime : ℚ
deriving Repr, DecidableEq

/-- Stable descending insertion into a probability-sorted list: the stable
order produced by `predictions.sort((a, b) => b.probability - a.probability)`
(ties keep source order, so the head is the first prediction of maximal
probability). -/
def insertDesc (p : Prediction) : List Prediction → List Prediction
  | [] => [p]
  | q :: qs =>
      if q.probability < p.probability then p :: q :: qs else q :: insertDesc p qs

/-- `predictions.sort((a, b) => b.probability - a.probability)` as a stable
insertion sort. -/
def sortPreds (l : List Prediction) : List Prediction :=
  l.foldr insertDesc []

/-- JavaScript truthiness of `this.labelMap[label]`: `undefined` and the
empty string are both falsy in `if (!productId)`. -/
def truthyLookup (m : List (String × String)) (label : String) : Option String :=
  match m.lookup label with
  | none => none
  | some pid => if pid = "" then none else some pid

/-- `MLClassifier.classifyProduct(videoElement)`.

`videoReady` stands for `videoElement && videoElement.readyState >= 2`.
The body runs under `try ... finally { this.isProcessing = false }`:
a thrown inference (or an empty prediction array, where
`predictions[0].probability` raises a `TypeError`) is caught, logged and
turned into `null` with the stats untouched. -/
def MLClassifier.classifyProduct (s : MLClassifier) (videoReady : Bool)
    (outcome : InferenceOutcome) : MLClassifier × Option ClassificationResult :=
  if !s.initialized then (s, none)
  else if !videoReady then (s, none)
  else if s.isProcessing then (s, none)
  else
    match outcome with
    | InferenceOutcome.threw => ({ s with isProcessing := false }, none)
    | InferenceOutcome.ok predictions inferenceTime =>
        match sortPreds predictions with
        | [] => ({ s with isProcessing := false }, none)
        | topPrediction :: restSorted =>
            let confidence := topPrediction.probability
            let label := topPrediction.className
            let total := s.stats.totalClassifications + 1
            let avg :=
              (s.stats.averageInferenceTime * ((total : ℚ) - 1) + inferenceTime) / (total : ℚ)
            let stats1 :=
              { s.stats with totalClassifications := total, averageInferenceTime := avg }
            if confidence < s.config.confidenceThreshold then
              ({ s with isProcessing := false,
                        stats := { stats1 with failedMatches := stats1.failedMatches + 1 } },
               none)
            else
              match truthyLookup s.labelMap label with
              | none =>
                  ({ s with isProcessing := false,
                            stats := { stats1 with failedMatches := stats1.failedMatches + 1 } },
                   none)
              | some productId =>
                  ({ s with isProcessing := false,
                            stats := { stats1 with
                              successfulMatches := stats1.successfulMatches + 1 } },
                   some
                     { productId := productId
                       confidence := confidence
                       label := label
                       allPredictions :=
                         (topPrediction :: restSorted).map fun p =>
                           { label := p.className
                             productId := s.labelMap.lookup p.className
                             confidence := p.probability }
                       inferenceTime := inferenceTime })

/-! ## Scene generation (`ARConfigLoader`, `src/js/config-loader.js`) -/

/-- The `a-gltf-model` child created inside a target entity by
`createTargetEntity`: `src` is `"#" + product.id`, transform copied from
`product.model`, `animation-mixer` attached iff `animation.enabled`.
The source never writes a `visible` attribute, so the model is visible. -/
structure SceneModel where
  src : String
  position : Vec3
  rotation : Vec3
  scale : Vec3
  animated : Bool
deriving Repr, DecidableEq

/-- An `a-entity` with attribute `mindar-image-target: targetIndex: i`
and `data-product-id`, as produced by `ARConfigLoader.createTargetEntity`. -/
structure TargetEntity where
  targetIndex : Nat
  productId : String
  models : List SceneModel
deriving Repr, DecidableEq

/-- `ARConfigLoader.createTargetEntity(product)`: one entity per product,
carrying exactly that product's single model. -/
def createTargetEntity (p : Product) : TargetEntity :=
  { targetIndex := p.targetIndex
    productId := p.id
    models :=
      [{ src := "#" ++ p.id
         position := p.model.position
         rotation := p.model.rotation
         scale := p.model.scale
         animated := p.model.animation.enabled }] }

/-- `ARConfigLoader.generateScene()`: after clearing existing targets, it
runs `this.products.forEach(product => ... scene.appendChild(target))`,
appending one target entity per product (plus one `a-asset-item` per
product, not modelled here). -/
def generateScene (products : List Product) : List TargetEntity :=
  products.map createTargetEntity

/-- `ARConfigLoader.validateTargets()`: pure logging, never throws.  The
returned strings summarise the console output. -/
def validateTargets (products : List Product) : List String :=
  if products.isEmpty then
    ["No products defined in products.json"]
  else
    let uniquePaths := uniqueList (products.map fun p => p.target.imagePath)
    if uniquePaths.length = 1 then
      ["All products use one .mind file"]
    else
      ["Multiple different .mind files detected"]

/-- `ARConfigLoader.updateSceneConfig()`, target-source selection part:
`uniquePaths.length === 1` picks the unique path, otherwise the first
product's `target.imagePath` is used and a warning is logged.  With an
empty product list the `else` branch dereferences `this.products[0].target`
on `undefined` and throws (`none` here). -/
def selectTargetSrc (products : List Product) : Option (String × List String) :=
  let uniquePaths := uniqueList (products.map fun p => p.target.imagePath)
  match uniquePaths with
  | [p0] => some (p0, [])
  | _ =>
      match products with
      | [] => none
      | p :: _ =>
          some (p.target.imagePath,
            ["Using first product target due to multiple .mind files"])

/-! ## Configuration loading
(`ARConfigLoader.loadConfig` and `SupabaseConfigLoader`,
`src/js/supabase-config-loader.js`) -/

/-- The configuration value produced by a load (`{ products, globalSettings }`;
`globalSettings` is omitted: no claim under verification inspects it). -/
structure ConfigData where
  products : List Product
deriving Repr, DecidableEq

/-- `ARConfigLoader.loadConfig()` (the secondary, `products.json` backend):
on a successful fetch it stores the products, runs `validateTargets`
(log only) and returns the data; a fetch / HTTP error is logged and
rethrown. -/
def arLoadConfig (fetched : Except String ConfigData) :
    Except String ConfigData × List String :=
  match fetched with
  | Except.error e => (Except.error e, ["Error loading configuration"])
  | Except.ok d => (Except.ok d, validateTargets d.products)

/-- `SupabaseConfigLoader.loadFromSupabase()`: the fetch
(`supabaseClient.getProducts()`) may throw; an empty row set throws
`'No products found in Supabase'`; otherwise the rows are converted
(`convertProducts`, a per-row map that preserves list length) and the
config is returned.  `fetched` carries the already-converted products. -/
def loadFromSupabase (fetched : Except String (List Product)) :
    Except String ConfigData :=
  match fetched with
  | Except.error e => Except.error e
  | Except.ok ps =>
      if ps.isEmpty then Except.error "No products found in Supabase"
      else Except.ok { products := ps }

/-- The primary backend failed: `getProducts()` threw, or it returned zero
products. -/
def primaryFailed (fetched : Except String (List Product)) : Bool :=
  match fetched with
  | Except.error _ => true
  | Except.ok ps => ps.isEmpty

/-- `SupabaseConfigLoader.loadConfig()`: primary-first when `useSupabase`;
on a caught error, fall back to `loadFromJSON()` iff the primary was in
use and `CONFIG.features.fallbackToJSON` is set (logging the fallback
notice), otherwise rethrow.  `jsonFetch` is the result `loadFromJSON()`
would produce (its own errors propagate unchanged). -/
def scLoadConfig (useSupabase fallbackToJSON : Bool)
    (supabaseFetch : Except String (List Product))
    (jsonFetch : Except String ConfigData) :
    Except String ConfigData × List String :=
  if useSupabase then
    match loadFromSupabase supabaseFetch with
    | Except.ok cfg => (Except.ok cfg, [])
    | Except.error e =>
        if fallbackToJSON then
          (jsonFetch, ["Falling back to products.json..."])
        else
          (Except.error e, [])
  else
    (jsonFetch, [])

/-! ## Target found / lost handling
(`src/js/app.js` `setupMLEventListeners` together with
`ARConfigLoader.attachEventListeners` /
`SupabaseConfigLoader.onProductFound` / `onProductLost`).

Both listener sets end up attached to every `[mindar-image-target]`
entity: `generateScene` attaches the config-loader listeners when the
entity is created, and `setupMLEventListeners` adds the app-level
listeners after MindAR starts.  A `targetFound` / `targetLost` DOM event
therefore runs both. -/

/-- The runtime feature flags consulted by the telemetry-emitting
overrides (`this.useSupabase && CONFIG.features.analyticsEnabled`). -/
structure Flags where
  useSupabase : Bool
  analyticsEnabled : Bool
deriving Repr, DecidableEq

/-- App-level recognition state (`app.js` module globals `mlReady`,
`detectionInProgress`, `currentProduct`). -/
structure AppState where
  mlReady : Bool
  detectionInProgress : Bool
  currentProduct : Option Product
deriving Repr, DecidableEq

/-- The IDLE recognition state: no active product and no detection in
progress (the state every `targetLost` handler run leaves behind). -/
def AppState.isIdle (st : AppState) : Bool :=
  st.currentProduct.isNone && !st.detectionInProgress

/-- Observable effects of one `targetFound` DOM event. -/
structure FoundEffects where
  onFoundFired : Bool
  foundTelemetry : Nat
  classifierInvoked : Bool
deriving Repr, DecidableEq

/-- One `targetFound` DOM event on the entity of product `p`.

Listener 1 (`ARConfigLoader.attachEventListeners`): unconditionally sets
the loader's `currentProduct` and runs `onProductFound(product)` — the
product's `interactions.onFound` side effects; the
`SupabaseConfigLoader` override additionally fires `product_found`
telemetry when the flags are on.

Listener 2 (`app.js`): iff `mlReady && mlClassifier && !detectionInProgress`,
sets `detectionInProgress = true` and schedules a `classifyProduct` call,
which runs when the video element is ready (`videoReady`); otherwise
`detectionInProgress` is reset without inference. -/
def targetFoundStep (fl : Flags) (st : AppState) (_p : Product)
    (videoReady : Bool) : AppState × FoundEffects :=
  let telemetry := if fl.useSupabase && fl.analyticsEnabled then 1 else 0
  if st.mlReady && !st.detectionInProgress then
    ({ st with detectionInProgress := true },
     { onFoundFired := true
       foundTelemetry := telemetry
       classifierInvoked := videoReady })
  else
    (st,
     { onFoundFired := true
       foundTelemetry := telemetry
       classifierInvoked := false })

/-- Observable effects of one `targetLost` DOM event. -/
structure LostEffects where
  lostTelemetry : Nat
  uiHidden : Bool
deriving Repr, DecidableEq

/-- One `targetLost` DOM event on the entity of product `p`.

Listener 1 (`ARConfigLoader.attachEventListeners`): unconditionally runs
`this.onProductLost(product)` — the `SupabaseConfigLoader` override fires
`product_lost` telemetry whenever `useSupabase && analyticsEnabled`,
with no state guard — then clears the loader's `currentProduct`.

Listener 2 (`app.js`): hides the tracking indicator, clears
`detectionInProgress`, and only when the app-level `currentProduct` is
set calls `arConfig.onProductLost(currentProduct)` (a second
`product_lost` telemetry event under the same flags), then clears
`currentProduct`. -/
def targetLostStep (fl : Flags) (st : AppState) (_p : Product) :
    AppState × LostEffects :=
  let loaderTelemetry := if fl.useSupabase && fl.analyticsEnabled then 1 else 0
  let appTelemetry :=
    if st.currentProduct.isSome && (fl.useSupabase && fl.analyticsEnabled) then 1 else 0
  ({ st with detectionInProgress := false, currentProduct := none },
   { lostTelemetry := loaderTelemetry + appTelemetry
     uiHidden := true })

/-! ## Telemetry sink (`SupabaseClient`, `src/unnamed/part_005`) -/

/-- An analytics event as built by `SupabaseClient.trackEvent` (browser
metadata fields omitted). -/
structure AnalyticsEvent where
  eventType : String
  productId : Option String
  sessionId : String
deriving Repr, DecidableEq

/-- Outcome of `this.client.from('analytics_events').insert(...)`:
resolved with no error, resolved with an `error` value, or rejected
(a thrown / network exception). -/
inductive SendOutcome where
  | ok
  | errorResult (msg : String)
  | threw (msg : String)
deriving Repr, DecidableEq

/-- `SupabaseClient.sendEventBatch()`: empty queue returns at once;
otherwise the queue is drained into `events`, the bulk insert runs, and
- an `error` result logs it and pushes all `events` back onto the queue
  (no retry count is kept);
- a thrown exception is caught and logged, the drained events are lost;
- success logs the sent count.
Returns the new queue and the error log lines; never throws. -/
def sendEventBatch (queue : List AnalyticsEvent) (o : SendOutcome) :
    List AnalyticsEvent × List String :=
  match queue with
  | [] => ([], [])
  | _ :: _ =>
      match o with
      | SendOutcome.ok => ([], [])
      | SendOutcome.errorResult msg => (queue, ["Batch analytics error: " ++ msg])
      | SendOutcome.threw msg => ([], ["Error sending analytics batch: " ++ msg])

/-- `SupabaseClient.flushEventQueue()`: `await this.sendEventBatch()`. -/
def flushEventQueue (queue : List AnalyticsEvent) (o : SendOutcome) :
    List AnalyticsEvent × List String :=
  sendEventBatch queue o

/-! ## Sample data (concrete catalogs and states used as test inputs) -/

/-- The default `interactions` block used by the Supabase converter. -/
def defaultInteractions : InteractionsCfg :=
  { onFound := { showUI := true, playSound := false, soundPath := "./assets/sounds/found.mp3" }
    onLost := { hideUI := true, pauseAnimation := false } }

/-- A model configuration with identity transform. -/
def mkModelCfg (path : String) : ModelCfg :=
  { path := path
    position := ⟨0, 0, 0⟩
    rotation := ⟨0, 0, 0⟩
    scale := ⟨1, 1, 1⟩
    animation := { enabled := false, clip := "*", loop := "repeat" } }

/-- A product with the given id, name, target index and `.mind` path. -/
def mkProduct (id name : String) (ti : Nat) (mindPath : String) : Product :=
  { id := id
    name := name
    targetIndex := ti
    target := { imagePath := mindPath, imagePreview := "" }
    model := mkModelCfg ("./assets/models/" ++ id ++ ".glb")
    interactions := defaultInteractions }

def productSpearmint : Product :=
  mkProduct "product-1" "Spearmint" 0 "./assets/targets/products.mind"

def productCoolMint : Product :=
  mkProduct "product-2" "Cool Mint" 0 "./assets/targets/products.mind"

def soloProduct : Product :=
  mkProduct "product-3" "Solo" 1 "./assets/targets/products.mind"

def productAltTarget : Product :=
  mkProduct "product-4" "Alt" 2 "./assets/targets/alt.mind"

/-- A catalog with one (solo) product at target index 1. -/
def soloCatalog : List Product := [soloProduct]

/-- A catalog with two products sharing target index 0. -/
def sharedCatalog : List Product := [productSpearmint, productCoolMint]

/-- A catalog whose two products reference two different `.mind` files. -/
def mixedCatalog : List Product := [productSpearmint, productAltTarget]

/-- A classifier whose model loaded successfully. -/
def readyClassifier : MLClassifier :=
  { newMLClassifier with initialized := true, modelLoaded := true }

/-- A ready classifier with a classification in flight. -/
def busyClassifier : MLClassifier :=
  { readyClassifier with isProcessing := true }

/-- Feature flags with Supabase and analytics both enabled. -/
def flagsOn : Flags := { useSupabase := true, analyticsEnabled := true }

/-- App state with the classifier ready and no active recognition. -/
def idleState : AppState :=
  { mlReady := true, detectionInProgress := false, currentProduct := none }

/-- A sample analytics event. -/
def evA : AnalyticsEvent :=
  { eventType := "product_found", productId := some "product-1"
    sessionId := "session-1" }

/-! ## C4: single-flight guard of `classifyProduct` -/

/-- C4: while a prior `classifyProduct` call is unresolved
(`this.isProcessing` set), a new call returns `null` immediately, with the
whole state — statistics included — unchanged and no inference started;
and any call that does start clears `isProcessing` on resolution, whether
the inference succeeds or throws (the `finally` block). -/
theorem classify_single_flight (s : MLClassifier) (v : Bool) (o : InferenceOutcome) :
    (s.isProcessing = true → s.classifyProduct v o = (s, none)) ∧
    (s.isProcessing = false → (s.classifyProduct v o).1.isProcessing = false) := by
  constructor
  · intro h
    unfold MLClassifier.classifyProduct
    repeat' split
    all_goals simp_all
  · intro h
    rcases hini : s.initialized
    · simp [MLClassifier.classifyProduct, hini, h]
    · rcases hv : v
      · simp [MLClassifier.classifyProduct, hini, h]
      · rcases o with ⟨preds, time⟩ | _
        · rcases hs : sortPreds preds with _ | ⟨top, restS⟩
          · simp [MLClassifier.classifyProduct, hini, h, hs]
          · by_cases hc : top.probability < s.config.confidenceThreshold
            · simp [MLClassifier.classifyProduct, hini, h, hs, hc]
            · rcases hl : truthyLookup s.labelMap top.className with _ | pid <;>
                simp [MLClassifier.classifyProduct, hini, h, hs, hc, hl]
        · simp [MLClassifier.classifyProduct, hini, h]

/-- C4 witness: a busy classifier rejects a new call with state unchanged,
and a completed (throwing) call ends with the flag cleared. -/
theorem classify_single_flight_witness :
    busyClassifier.classifyProduct true (InferenceOutcome.ok [] 0)
      = (busyClassifier, none) ∧
    (readyClassifier.classifyProduct true InferenceOutcome.threw).1.isProcessing = false :=
  ⟨(classify_single_flight busyClassifier true (InferenceOutcome.ok [] 0)).1 rfl,
   (classify_single_flight readyClassifier true InferenceOutcome.threw).2 rfl⟩

/-! ## C8: failed model load leaves the adapter unusable -/

/-- C8: if `initialize` fails (`loadModel` here; a non-empty product list,
model load throws), the error is rethrown, `initialized` is cleared so
`isReady()` is `false`, every subsequent `classifyProduct` call returns
`null` with the state untouched, and a later successful re-load makes the
adapter ready again. -/
theorem ml_load_failure_not_ready (s : MLClassifier) (ps : List Product)
    (msg : String) (hps : ps.isEmpty = false) :
    (s.loadModel ps (ModelLoadOutcome.err msg)).2 = Except.error msg ∧
    ((s.loadModel ps (ModelLoadOutcome.err msg)).1).isReady = false ∧
    (∀ v o, ((s.loadModel ps (ModelLoadOutcome.err msg)).1).classifyProduct v o
        = ((s.loadModel ps (ModelLoadOutcome.err msg)).1, none)) ∧
    (((s.loadModel ps (ModelLoadOutcome.err msg)).1.loadModel ps
        ModelLoadOutcome.ok).1).isReady = true := by
  refine ⟨by simp [MLClassifier.loadModel, hps], by simp [MLClassifier.loadModel, hps, MLClassifier.isReady], ?_, by simp [MLClassifier.loadModel, hps, MLClassifier.isReady]⟩
  intro v o
  simp [MLClassifier.loadModel, hps, MLClassifier.classifyProduct]

/-- C8 witness: a fresh classifier whose model load fails on the solo
catalog is not ready and classification returns `null`. -/
theorem ml_load_failure_not_ready_witness :
    ((newMLClassifier.loadModel soloCatalog (ModelLoadOutcome.err "load failed")).1).isReady
      = false ∧
    ((newMLClassifier.loadModel soloCatalog (ModelLoadOutcome.err "load failed")).1).classifyProduct
        true InferenceOutcome.threw
      = ((newMLClassifier.loadModel soloCatalog (ModelLoadOutcome.err "load failed")).1, none) := by
  have h := ml_load_failure_not_ready newMLClassifier soloCatalog "load failed" (by decide)
  exact ⟨h.2.1, h.2.2.1 true InferenceOutcome.threw⟩

/-! ## C10: statistics invariant -/

/-- `totalClassifications = successfulMatches + failedMatches`. -/
def MLStats.consistent (st : MLStats) : Prop :=
  st.totalClassifications = st.successfulMatches + st.failedMatches

/-- C10: the statistics invariant
`totalClassifications = successfulMatches + failedMatches` is preserved by
every `classifyProduct` call, holds after `resetStats`, and calls rejected
before inference (not initialized, video not ready, in flight) or whose
inference throws leave all counters unchanged. -/
theorem stats_invariant (s : MLClassifier) (v : Bool) (o : InferenceOutcome)
    (h : s.stats.consistent) :
    ((s.classifyProduct v o).1.stats).consistent ∧
    ((s.resetStats).stats).consistent ∧
    (o = InferenceOutcome.threw → (s.classifyProduct v o).1.stats = s.stats) ∧
    (s.initialized = false ∨ v = false ∨ s.isProcessing = true →
      (s.classifyProduct v o).1.stats = s.stats) := by
  unfold MLStats.consistent at h
  refine ⟨?_, by simp [MLClassifier.resetStats, MLStats.consistent], ?_, ?_⟩
  · rcases hini : s.initialized
    · simpa [MLClassifier.classifyProduct, hini, MLStats.consistent] using h
    · rcases hv : v
      · simpa [MLClassifier.classifyProduct, hini, MLStats.consistent] using h
      · rcases hp : s.isProcessing
        · rcases o with ⟨preds, time⟩ | _
          · rcases hs : sortPreds preds with _ | ⟨top, restS⟩
            · simpa [MLClassifier.classifyProduct, hini, hp, hs, MLStats.consistent] using h
            · by_cases hc : top.probability < s.config.confidenceThreshold
              · simp [MLClassifier.classifyProduct, hini, hp, hs, hc, MLStats.consistent]
                omega
              · rcases hl : truthyLookup s.labelMap top.className with _ | pid <;>
                  simp [MLClassifier.classifyProduct, hini, hp, hs, hc, hl,
                    MLStats.consistent] <;> omega
          · simpa [MLClassifier.classifyProduct, hini, hp, MLStats.consistent] using h
        · simpa [MLClassifier.classifyProduct, hini, hp, MLStats.consistent] using h
  · rintro rfl
    rcases hini : s.initialized <;> rcases hv : v <;> rcases hp : s.isProcessing <;>
      simp [MLClassifier.classifyProduct, hini, hp]
  · intro hrej
    rcases hrej with hrej | hrej | hrej <;>
      rcases hini : s.initialized <;> rcases hv : v <;> rcases hp : s.isProcessing <;>
        simp_all [MLClassifier.classifyProduct]

/-- C10 witness: the invariant holds after a successful classification on
a fresh ready classifier. -/
theorem stats_invariant_witness :
    ((readyClassifier.classifyProduct true
        (InferenceOutcome.ok [⟨"Spearmint", mkRat 94 100⟩] 40)).1.stats).consistent :=
  (stats_invariant readyClassifier true
    (InferenceOutcome.ok [⟨"Spearmint", mkRat 94 100⟩] 40) rfl).1

/-! ## C2: scene assembly emits one entity per product -/

/-- C2 counterexample: for the catalog with two products sharing target
index 0, `generateScene` emits two entities (one per product), not one
entity per distinct `targetIndex`: the claimed equality
`entity count = number of distinct targetIndex values` fails (2 vs 1),
and no single entity carries both models. -/
theorem scene_entity_count_cex :
    (uniqueList (sharedCatalog.map fun p => p.targetIndex)).length = 1 ∧
    (generateScene sharedCatalog).length = 2 ∧
    ¬((generateScene sharedCatalog).length
        = (uniqueList (sharedCatalog.map fun p => p.targetIndex)).length) := by
  decide

/-- C2 amended: `generateScene` emits exactly one entity per product
(entity count equals the product count, and per `targetIndex` the entity
count equals the number of products in that group), and each entity
carries exactly one model — that product's model, with no not-visible
flag.  For a shared group of N ≥ 2 products it therefore emits N
single-model entities at the same target index, not one entity with N
hidden models. -/
theorem scene_one_entity_per_product (ps : List Product) (t : Nat) :
    (generateScene ps).length = ps.length ∧
    ((generateScene ps).filter (fun e => e.targetIndex == t)).length
      = (ps.filter (fun p => p.targetIndex == t)).length ∧
    ∀ e ∈ generateScene ps, e.models.length = 1 := by
  refine ⟨by simp [generateScene], ?_, ?_⟩
  · show ((ps.map createTargetEntity).filter (fun e => e.targetIndex == t)).length = _
    rw [← List.countP_eq_length_filter, ← List.countP_eq_length_filter, List.countP_map]
    rfl
  · intro e he
    simp [generateScene, List.mem_map] at he
    obtain ⟨p, -, rfl⟩ := he
    rfl

/-- C2 amended witness: for the shared two-product catalog, two entities
are emitted, both at target index 0, and the first carries exactly one
model. -/
theorem scene_one_entity_per_product_witness :
    (generateScene sharedCatalog).length = sharedCatalog.length ∧
    ((generateScene sharedCatalog).filter (fun e => e.targetIndex == 0)).length
      = (sharedCatalog.filter (fun p => p.targetIndex == 0)).length ∧
    (createTargetEntity productSpearmint).models.length = 1 := by
  have h := scene_one_entity_per_product sharedCatalog 0
  exact ⟨h.1, h.2.1, h.2.2 (createTargetEntity productSpearmint) (by decide)⟩

/-! ## C9: multiple distinct `.mind` paths — first product wins -/

/-- C9: when the catalog's products reference two or more distinct target
image paths, `updateSceneConfig` selects the first product's
`target.imagePath` as the single tracking-target source and logs a
warning; the load step itself still succeeds (`validateTargets` only
logs). -/
theorem multi_target_first_wins (p : Product) (rest : List Product)
    (h : 2 ≤ (uniqueList ((p :: rest).map fun q => q.target.imagePath)).length) :
    selectTargetSrc (p :: rest)
      = some (p.target.imagePath,
          ["Using first product target due to multiple .mind files"]) ∧
    (arLoadConfig (Except.ok { products := p :: rest })).1
      = Except.ok { products := p :: rest } := by
  refine ⟨?_, rfl⟩
  unfold selectTargetSrc
  rcases hu : uniqueList ((p :: rest).map fun q => q.target.imagePath) with
    _ | ⟨a, _ | ⟨b, tl⟩⟩
  · rw [hu] at h; simp at h
  · rw [hu] at h; simp at h
  · rw [hu]

/-- C9 witness: the two-product catalog whose products name two different
`.mind` files selects the first product's path with a warning. -/
theorem multi_target_first_wins_witness :
    selectTargetSrc mixedCatalog
      = some ("./assets/targets/products.mind",
          ["Using first product target due to multiple .mind files"]) ∧
    (arLoadConfig (Except.ok { products := mixedCatalog })).1
      = Except.ok { products := mixedCatalog } :=
  multi_target_first_wins productSpearmint [productAltTarget] (by decide)

/-! ## C6: failed telemetry batches -/

/-- C6 counterexample: an event whose bulk insert fails twice in a row
(the insert resolves with an error both times) is still in the queue after
the second failure — it is re-queued on every failure, not re-queued at
most once and then dropped. -/
theorem event_requeue_cex :
    (sendEventBatch
        (sendEventBatch [evA] (SendOutcome.errorResult "db error")).1
        (SendOutcome.errorResult "db error")).1 = [evA] := by
  decide

/-- C6 amended: on a failed bulk send whose insert resolves with an error
value, the whole batch is re-queued with no retry cap (so an event can be
re-queued on every consecutive failure); on a thrown transport exception
the batch is dropped immediately (zero re-queues); in every case the
error is only logged — `sendEventBatch` (and hence `flushEventQueue`)
returns normally and never propagates the failure to its caller. -/
theorem send_batch_behavior (queue : List AnalyticsEvent) (o : SendOutcome)
    (hq : queue ≠ []) :
    (∀ msg, o = SendOutcome.errorResult msg →
        sendEventBatch queue o = (queue, ["Batch analytics error: " ++ msg])) ∧
    (∀ msg, o = SendOutcome.threw msg →
        sendEventBatch queue o = ([], ["Error sending analytics batch: " ++ msg])) ∧
    (o = SendOutcome.ok → sendEventBatch queue o = ([], [])) ∧
    flushEventQueue queue o = sendEventBatch queue o := by
  cases queue with
  | nil => exact absurd rfl hq
  | cons e es =>
      refine ⟨?_, ?_, ?_, rfl⟩
      · rintro msg rfl; rfl
      · rintro msg rfl; rfl
      · rintro rfl; rfl

/-- C6 witness: a singleton queue whose send throws is dropped with the
error logged, not rethrown. -/
theorem send_batch_behavior_witness :
    sendEventBatch [evA] (SendOutcome.threw "network down")
      = ([], ["Error sending analytics batch: network down"]) :=
  (send_batch_behavior [evA] (SendOutcome.threw "network down")
    (by decide)).2.1 "network down" rfl

/-! ## C7: repeated `target_lost` while IDLE -/

/-- C7 counterexample: with Supabase analytics enabled, a `target_lost`
signal received while the session is already IDLE still fires one
`product_lost` telemetry event, because the config-loader entity listener
invokes `onProductLost` unconditionally — contradicting "no additional
side effects / no duplicate `product_lost` telemetry". -/
theorem idle_lost_telemetry_cex :
    AppState.isIdle idleState = true ∧
    (targetLostStep flagsOn idleState soloProduct).2.lostTelemetry = 1 := by
  decide

/-- C7 amended: a `target_lost` signal while already IDLE leaves the
app-level session state unchanged and fires no telemetry through the
app-level handler (which guards on an active product), but the
config-loader entity listener still fires exactly one `product_lost`
telemetry event whenever `useSupabase && analyticsEnabled`; with
analytics off there is no telemetry at all. -/
theorem idle_lost_state_unchanged (fl : Flags) (st : AppState) (p : Product)
    (h : st.isIdle = true) :
    (targetLostStep fl st p).1 = st ∧
    (targetLostStep fl st p).2.lostTelemetry
      = (if fl.useSupabase && fl.analyticsEnabled then 1 else 0) := by
  cases st with
  | mk ml dip cp =>
      simp [AppState.isIdle] at h
      obtain ⟨h1, h2⟩ := h
      subst h1
      simp [targetLostStep, h2]

/-- C7 witness: with analytics enabled, a lost signal in the IDLE state
keeps the state and fires exactly the one loader-side telemetry event. -/
theorem idle_lost_state_unchanged_witness :
    (targetLostStep flagsOn idleState soloProduct).1 = idleState ∧
    (targetLostStep flagsOn idleState soloProduct).2.lostTelemetry
      = (if flagsOn.useSupabase && flagsOn.analyticsEnabled then 1 else 0) :=
  idle_lost_state_unchanged flagsOn idleState soloProduct (by decide)

/-! ## C5: solo group `target_found` still invokes the classifier -/

/-- C5 counterexample: `soloProduct` is the only product at its target
index in `soloCatalog` (a solo group), yet a `target_found` on its entity
with the ML classifier ready and a decodable frame invokes the classifier
— the app-level listener runs ML classification on every `targetFound`
regardless of group arity, contradicting "without invoking the
classifier". -/
theorem solo_found_invokes_classifier_cex :
    (soloCatalog.filter fun q => q.targetIndex == soloProduct.targetIndex).length = 1 ∧
    (targetFoundStep flagsOn idleState soloProduct true).2.classifierInvoked = true := by
  decide

/-- C5 amended: a `target_found` signal always fires the product's
`onFound` side effects immediately via the config-loader entity listener
(a direct transition to IDENTIFIED, with `product_found` telemetry when
analytics is on), for solo and shared groups alike; and — independently
of the group's arity — the app-level listener additionally invokes the
classifier exactly when the ML adapter is ready, no detection is in
progress, and the video frame is decodable.  Only when the classifier is
not ready (or busy) does the transition happen without classification. -/
theorem target_found_behavior (fl : Flags) (st : AppState) (p : Product)
    (v : Bool) :
    (targetFoundStep fl st p v).2.onFoundFired = true ∧
    (targetFoundStep fl st p v).2.classifierInvoked
      = (st.mlReady && !st.detectionInProgress && v) ∧
    (targetFoundStep fl st p v).2.foundTelemetry
      = (if fl.useSupabase && fl.analyticsEnabled then 1 else 0) := by
  rcases hml : st.mlReady <;> rcases hdip : st.detectionInProgress <;> rcases v <;>
    simp [targetFoundStep, hml, hdip]

/-! ## C3: configuration fallback -/

/-- C3: with the primary (Supabase) backend in use, if it throws or
returns zero products and `fallbackToJSON` is enabled,
`SupabaseConfigLoader.loadConfig` returns whatever the secondary
(`products.json`) backend produces and logs the fallback notice; with the
fallback flag disabled the same primary failure propagates as an error to
the caller. -/
theorem load_fallback_correct (sb : Except String (List Product))
    (js : Except String ConfigData) (h : primaryFailed sb = true) :
    scLoadConfig true true sb js = (js, ["Falling back to products.json..."]) ∧
    (∃ e, scLoadConfig true false sb js = (Except.error e, [])) := by
  have hfail : ∃ e, loadFromSupabase sb = Except.error e := by
    cases sb with
    | error e => exact ⟨e, rfl⟩
    | ok ps =>
        simp [primaryFailed] at h
        exact ⟨"No products found in Supabase", by simp [loadFromSupabase, h]⟩
  obtain ⟨e, he⟩ := hfail
  exact ⟨by simp [scLoadConfig, he], ⟨e, by simp [scLoadConfig, he]⟩⟩

/-- C3 witness (Scenario D): the primary backend returns an empty row
set; with fallback enabled, `loadConfig` resolves to the secondary
catalog of two products with the fallback logged, and with fallback
disabled it errors. -/
theorem load_fallback_correct_witness :
    scLoadConfig true true (Except.ok []) (Except.ok { products := sharedCatalog })
      = (Except.ok { products := sharedCatalog }, ["Falling back to products.json..."]) ∧
    (∃ e, scLoadConfig true false (Except.ok []) (Except.ok { products := sharedCatalog })
        = (Except.error e, [])) :=
  load_fallback_correct (Except.ok []) (Except.ok { products := sharedCatalog }) (by decide)

/-! ## C1: the confidence-threshold law of `classifyProduct` -/

/-- C1: on a ready adapter with no call in flight and a decodable frame,
a completed inference returns a non-`null` result exactly when the top
prediction's confidence is at or above `config.confidenceThreshold`
(default 0.70) and the top label maps to a (truthy) product id;
`totalClassifications` always increments, a non-`null` return increments
`successfulMatches`, a `null` return increments `failedMatches`, and the
non-`null` result is the populated `ClassificationResult`. -/
theorem classify_threshold_law (s : MLClassifier) (preds : List Prediction)
    (t : ℚ) (top : Prediction) (restS : List Prediction)
    (hready : s.isReady = true) (hproc : s.isProcessing = false)
    (hsort : sortPreds preds = top :: restS) :
    ((s.classifyProduct true (InferenceOutcome.ok preds t)).2.isSome
        = (decide (s.config.confidenceThreshold ≤ top.probability)
            && (truthyLookup s.labelMap top.className).isSome)) ∧
    (s.classifyProduct true (InferenceOutcome.ok preds t)).1.stats.totalClassifications
      = s.stats.totalClassifications + 1 ∧
    ((s.classifyProduct true (InferenceOutcome.ok preds t)).2.isSome = true →
      (s.classifyProduct true (InferenceOutcome.ok preds t)).1.stats.successfulMatches
          = s.stats.successfulMatches + 1 ∧
      (s.classifyProduct true (InferenceOutcome.ok preds t)).1.stats.failedMatches
          = s.stats.failedMatches) ∧
    ((s.classifyProduct true (InferenceOutcome.ok preds t)).2 = none →
      (s.classifyProduct true (InferenceOutcome.ok preds t)).1.stats.failedMatches
          = s.stats.failedMatches + 1 ∧
      (s.classifyProduct true (InferenceOutcome.ok preds t)).1.stats.successfulMatches
          = s.stats.successfulMatches) ∧
    (∀ pid, truthyLookup s.labelMap top.className = some pid →
      s.config.confidenceThreshold ≤ top.probability →
      (s.classifyProduct true (InferenceOutcome.ok preds t)).2
        = some
            { productId := pid
              confidence := top.probability
              label := top.className
              allPredictions := (top :: restS).map fun p =>
                { label := p.className
                  productId := s.labelMap.lookup p.className
                  confidence := p.probability }
              inferenceTime := t }) := by
  have hini : s.initialized = true := by
    have := hready
    unfold MLClassifier.isReady at this
    exact (Bool.and_eq_true _ _).mp this |>.1
  by_cases hc : top.probability < s.config.confidenceThreshold
  · have hnot : ¬ s.config.confidenceThreshold ≤ top.probability := not_le.mpr hc
    refine ⟨?_, ?_, ?_, ?_, ?_⟩ <;>
      simp [MLClassifier.classifyProduct, hini, hproc, hsort, hc, hnot]
  · have hle : s.config.confidenceThreshold ≤ top.probability := not_lt.mp hc
    rcases hl : truthyLookup s.labelMap top.className with _ | pid
    · refine ⟨?_, ?_, ?_, ?_, ?_⟩ <;>
        simp [MLClassifier.classifyProduct, hini, hproc, hsort, hc, hle, hl]
    · refine ⟨?_, ?_, ?_, ?_, ?_⟩ <;>
        simp [MLClassifier.classifyProduct, hini, hproc, hsort, hc, hle, hl]

/-- C1 witness: a ready classifier classifying a frame whose top
prediction is Spearmint at confidence 0.94 returns a non-`null` result
(0.94 is at or above the 0.70 threshold and "Spearmint" is mapped), with
the success counter incremented. -/
theorem classify_threshold_law_witness :
    ((readyClassifier.classifyProduct true
        (InferenceOutcome.ok
          [⟨"Spearmint", mkRat 94 100⟩, ⟨"Cool Mint", mkRat 6 100⟩] 40)).2.isSome
      = (decide (readyClassifier.config.confidenceThreshold ≤ mkRat 94 100)
          && (truthyLookup readyClassifier.labelMap "Spearmint").isSome)) ∧
    (readyClassifier.classifyProduct true
        (InferenceOutcome.ok
          [⟨"Spearmint", mkRat 94 100⟩, ⟨"Cool Mint", mkRat 6 100⟩] 40)).1.stats.totalClassifications
      = readyClassifier.stats.totalClassifications + 1 := by
  have h := classify_threshold_law readyClassifier
    [⟨"Spearmint", mkRat 94 100⟩, ⟨"Cool Mint", mkRat 6 100⟩] 40
    ⟨"Spearmint", mkRat 94 100⟩ [⟨"Cool Mint", mkRat 6 100⟩] (by decide) rfl (by decide)
  exact ⟨h.1, h.2.1⟩

end ImageReco
